import Mathlib

/-!
Shallow embedding of the `value-bag` crate's capture/cast core.

The Rust source is translated directly:
* `Primitive` and the `From` impls come from `src/internal/mod.rs`;
* the three type-recovery strategies come from `src/internal/cast/primitive.rs`
  (`value_bag_capture_const_type_id`, `value_bag_capture_ctor`,
  `value_bag_capture_fallback`);
* the `Cast` type and its `into_*` conversions come from `src/internal/cast/mod.rs`;
* the sequence extension machinery comes from `src/internal/seq.rs`;
* the `sval` streaming visitor comes from `src/internal/sval/v2.rs`;
* error capture comes from `src/internal/error.rs`.

Machine integers are modelled as `Nat`/`Int` together with explicit range
predicates; `f64` is modelled by `Rat`, which represents every float value the
modelled conversions can produce exactly (the crate only converts integers that
fit a 32-bit intermediate, and such conversions are exact).
-/

/-- `u32::MAX`. -/
def U32MAX : Nat := 2 ^ 32 - 1

/-- `u64::MAX`. -/
def U64MAX : Nat := 2 ^ 64 - 1

/-- `u128::MAX`. -/
def U128MAX : Nat := 2 ^ 128 - 1

/-- `i32::MAX`. -/
def I32MAX : Int := 2 ^ 31 - 1

/-- `i32::MIN`. -/
def I32MIN : Int := -(2 ^ 31)

/-- `i64::MAX`. -/
def I64MAX : Int := 2 ^ 63 - 1

/-- `i64::MIN`. -/
def I64MIN : Int := -(2 ^ 63)

/-- `i64::MAX` as a natural number. -/
def I64MAXn : Nat := 2 ^ 63 - 1

/-- `i128::MAX`. -/
def I128MAX : Int := 2 ^ 127 - 1

/-- `i128::MIN`. -/
def I128MIN : Int := -(2 ^ 127)

/-- `i128::MAX` as a natural number. -/
def I128MAXn : Nat := 2 ^ 127 - 1

/-- A value is in the range of `u64`. -/
def isU64 (n : Nat) : Prop := n ≤ U64MAX

/-- A value is in the range of `u128`. -/
def isU128 (n : Nat) : Prop := n ≤ U128MAX

/-- A value is in the range of `i64`. -/
def isI64 (i : Int) : Prop := I64MIN ≤ i ∧ i ≤ I64MAX

/-- A value is in the range of `i128`. -/
def isI128 (i : Int) : Prop := I128MIN ≤ i ∧ i ≤ I128MAX

/-- Model of `f64`. Every value produced by the modelled code is an exact
rational (pass-through of a stored float, or exact conversion from a 32-bit
integer), so `Rat` is a faithful carrier for the reachable values. -/
abbrev F64 := Rat

/-- The concrete candidate source types of the type-recovery engine
(`src/internal/cast/primitive.rs`): the order is the order of the
`to_primitive!` / `type_ids!` candidate lists in the source. -/
inductive ScalarTy where
  | tusize | tu8 | tu16 | tu32 | tu64 | tu128
  | tisize | ti8 | ti16 | ti32 | ti64 | ti128
  | tf32 | tf64
  | tchar | tbool
  | tstaticStr
  deriving DecidableEq, Repr

/-- A typed primitive source value: a Rust value of one of the candidate
types, carrying its payload. -/
inductive Scalar where
  | vusize (n : Nat)
  | vu8 (n : Nat)
  | vu16 (n : Nat)
  | vu32 (n : Nat)
  | vu64 (n : Nat)
  | vu128 (n : Nat)
  | visize (i : Int)
  | vi8 (i : Int)
  | vi16 (i : Int)
  | vi32 (i : Int)
  | vi64 (i : Int)
  | vi128 (i : Int)
  | vf32 (v : F64)
  | vf64 (v : F64)
  | vchar (c : Char)
  | vbool (b : Bool)
  | vstaticStr (s : String)
  deriving DecidableEq

/-- The static type of a typed scalar value. -/
def Scalar.ty : Scalar → ScalarTy
  | .vusize _ => .tusize
  | .vu8 _ => .tu8
  | .vu16 _ => .tu16
  | .vu32 _ => .tu32
  | .vu64 _ => .tu64
  | .vu128 _ => .tu128
  | .visize _ => .tisize
  | .vi8 _ => .ti8
  | .vi16 _ => .ti16
  | .vi32 _ => .ti32
  | .vi64 _ => .ti64
  | .vi128 _ => .ti128
  | .vf32 _ => .tf32
  | .vf64 _ => .tf64
  | .vchar _ => .tchar
  | .vbool _ => .tbool
  | .vstaticStr _ => .tstaticStr

/-- An erased `&T` with `T : ?Sized + 'static`, as passed to `from_any`:
either a candidate scalar type, an `Option` of a candidate type, the unsized
`str` type, or some other (non-candidate) static type. -/
inductive AnyValue where
  | direct (v : Scalar)
  | someOf (v : Scalar)
  | noneOf (t : ScalarTy)
  | strVal (s : String)
  | other
  deriving DecidableEq

/-- The captured primitive (`Primitive` in `src/internal/mod.rs`, extended with
the 128-bit carriers used by the cast engine in `src/internal/cast/mod.rs`). -/
inductive Primitive where
  | signed (i : Int)
  | unsigned (n : Nat)
  | bigSigned (i : Int)
  | bigUnsigned (n : Nat)
  | float (v : F64)
  | bool (b : Bool)
  | char (c : Char)
  | str (s : String)
  | none
  deriving DecidableEq

/-- The `From` conversions into `Primitive` (`src/internal/mod.rs` lines
202-312: unsigned widths widen into the `u64` carrier, signed widths into the
`i64` carrier, both float widths into `f64`).
The `u128`/`i128` arms are `Modelled from the spec:` the `From` impls for the
128-bit widths live in a module absent from `src/` (`impls.rs`); the spec
requires the conversion to be total and lossless, so they map into the
dedicated 128-bit carriers used by `src/internal/cast/mod.rs`. -/
def Primitive.fromScalar : Scalar → Primitive
  | .vusize n => .unsigned n
  | .vu8 n => .unsigned n
  | .vu16 n => .unsigned n
  | .vu32 n => .unsigned n
  | .vu64 n => .unsigned n
  | .vu128 n => .bigUnsigned n
  | .visize i => .signed i
  | .vi8 i => .signed i
  | .vi16 i => .signed i
  | .vi32 i => .signed i
  | .vi64 i => .signed i
  | .vi128 i => .bigSigned i
  | .vf32 v => .float v
  | .vf64 v => .float v
  | .vchar c => .char c
  | .vbool b => .bool b
  | .vstaticStr s => .str s

/-- Strategy A (`value_bag_capture_const_type_id` in
`src/internal/cast/primitive.rs`): compile-time constant type-id dispatch.
Each candidate type and its `Option` wrapping map through `Primitive::from`;
`str` is handled by the dedicated `STR` arm; all other types yield `None`. -/
def from_any_const_type_id : AnyValue → Option Primitive
  | .direct v => some (Primitive.fromScalar v)
  | .someOf v => some (Primitive.fromScalar v)
  | .noneOf _ => some .none
  | .strVal s => some (.str s)
  | .other => Option.none

/-- Index of a candidate type in the source's candidate list (the model's
stand-in for the opaque `TypeId` of the direct candidate types). -/
def ScalarTy.idx : ScalarTy → Nat
  | .tusize => 0
  | .tu8 => 1
  | .tu16 => 2
  | .tu32 => 3
  | .tu64 => 4
  | .tu128 => 5
  | .tisize => 6
  | .ti8 => 7
  | .ti16 => 8
  | .ti32 => 9
  | .ti64 => 10
  | .ti128 => 11
  | .tf32 => 12
  | .tf64 => 13
  | .tchar => 14
  | .tbool => 15
  | .tstaticStr => 16

/-- The model's `TypeId` of an erased value: direct candidates, `Option`
candidates, `str` and non-candidate types all have distinct identities. -/
def AnyValue.typeKey : AnyValue → Nat
  | .direct v => v.ty.idx
  | .someOf v => 17 + v.ty.idx
  | .noneOf t => 17 + t.idx
  | .strVal _ => 34
  | .other => 35

/-- A dispatch-table entry's conversion function (`for<'a> fn(VoidRef<'a>) ->
Primitive<'a>` in the source): invoked only after the type-id check succeeded,
so the fallthrough arms are unreachable. -/
abbrev RecoverFn := AnyValue → Primitive

/-- Table conversion for a direct candidate type (reinterprets the reference as
the candidate type; guarded by the type-id match, so other shapes are
unreachable). -/
def handlerDirect (_t : ScalarTy) : RecoverFn := fun v =>
  match v with
  | .direct s => Primitive.fromScalar s
  | _ => .none

/-- Table conversion for an `Option`-wrapped candidate type. -/
def handlerOption (_t : ScalarTy) : RecoverFn := fun v =>
  match v with
  | .someOf s => Primitive.fromScalar s
  | .noneOf _ => .none
  | _ => .none

/-- Table conversion for the unsized `str` entry. -/
def handlerStr : RecoverFn := fun v =>
  match v with
  | .strVal s => .str s
  | _ => .none

/-- The candidate type list, in source order. -/
def tyList : List ScalarTy :=
  [.tusize, .tu8, .tu16, .tu32, .tu64, .tu128,
   .tisize, .ti8, .ti16, .ti32, .ti64, .ti128,
   .tf32, .tf64, .tchar, .tbool, .tstaticStr]

/-- The 35-entry dispatch table of strategy B, before sorting (`type_ids!` in
the `value_bag_capture_ctor` block: the 17 direct candidates, their 17
`Option` wrappings, and the extra `str` entry). -/
def TYPE_IDS : List (Nat × RecoverFn) :=
  (tyList.map fun t => (t.idx, handlerDirect t)) ++
  (tyList.map fun t => (17 + t.idx, handlerOption t)) ++
  [(34, handlerStr)]

/-- Insert an entry into a key-sorted table. -/
def insertEntry (x : Nat × RecoverFn) : List (Nat × RecoverFn) → List (Nat × RecoverFn)
  | [] => [x]
  | y :: rest => if x.1 ≤ y.1 then x :: y :: rest else y :: insertEntry x rest

/-- Sort the dispatch table by type-id key. The source sorts the table once at
process start with an in-place quicksort (`quicksort_by`); the model uses a
sorting function with the same observable outcome, a key-sorted table. -/
def sortEntries : List (Nat × RecoverFn) → List (Nat × RecoverFn)
  | [] => []
  | x :: rest => insertEntry x (sortEntries rest)

/-- The sorted dispatch table (the `TYPE_IDS` static after the constructor
hook ran). -/
def sortedTypeIds : List (Nat × RecoverFn) := sortEntries TYPE_IDS

/-- Binary search by key over the sorted table
(`TYPE_IDS.binary_search_by_key`). Fuel-based so that it reduces
definitionally; the fuel is always sufficient for the 35-entry table. -/
def binSearchGo (a : Array (Nat × RecoverFn)) (key : Nat) :
    Nat → Nat → Nat → Option RecoverFn
  | _, _, 0 => Option.none
  | lo, hi, fuel + 1 =>
    if lo < hi then
      let mid := (lo + hi) / 2
      match a[mid]? with
      | Option.none => Option.none
      | some (k, f) =>
        if key < k then binSearchGo a key lo mid fuel
        else if k < key then binSearchGo a key (mid + 1) hi fuel
        else some f
    else Option.none

/-- Strategy B (`value_bag_capture_ctor`): binary search of the value's
type-id in the startup-sorted dispatch table, invoking the matched conversion
function. -/
def from_any_ctor (v : AnyValue) : Option Primitive :=
  let a := sortedTypeIds.toArray
  match binSearchGo a v.typeKey 0 a.size (a.size + 1) with
  | some f => some (f v)
  | Option.none => Option.none

/-- One sequential downcast attempt against a direct candidate type (the
`downcast_ref::<$ty>()` arm of the fallback macro). -/
def downcastDirect (t : ScalarTy) : AnyValue → Option Scalar
  | .direct s => if s.ty = t then some s else Option.none
  | _ => Option.none

/-- One sequential downcast attempt against an `Option`-wrapped candidate type
(the `downcast_ref::<Option<$ty>>()` arm of the fallback macro). -/
def downcastOption (t : ScalarTy) : AnyValue → Option (Option Scalar)
  | .someOf s => if s.ty = t then some (some s) else Option.none
  | .noneOf t' => if t' = t then some Option.none else Option.none
  | _ => Option.none

/-- Strategy C (`value_bag_capture_fallback`): sequential dynamic downcasts,
first against every direct candidate type in order, then against every
`Option`-wrapped candidate; `None` if nothing matched. Note the fallback
candidate list has no special entry for the unsized `str` type. -/
def from_any_fallback (v : AnyValue) : Option Primitive :=
  match tyList.findSome? fun t => (downcastDirect t v).map Primitive.fromScalar with
  | some p => some p
  | Option.none =>
    tyList.findSome? fun t =>
      (downcastOption t v).map fun o =>
        match o with
        | some s => Primitive.fromScalar s
        | Option.none => Primitive.none

/-- A scalar pushed through the `sval` stream interface
(`value_bag_sval2::lib::Stream` methods in `src/internal/sval/v2.rs`): text
carries whether its fragments were borrowed for `'v` (then `text_end` calls
`borrowed_str`) or computed (then it calls `str`). -/
inductive ScalarEv where
  | null
  | bool (b : Bool)
  | i64 (i : Int)
  | u64 (n : Nat)
  | i128 (i : Int)
  | u128 (n : Nat)
  | f64 (v : F64)
  | text (s : String) (borrowed : Bool)
  deriving DecidableEq

mutual

/-- The shape of a structured (`sval`-streamable) value: a scalar, a sequence,
or a map. -/
inductive SvalValue where
  | scalar (p : ScalarEv)
  | seq (elems : SvalList)
  | map (entries : SvalPairs)
  deriving DecidableEq

/-- A list of structured values (sequence elements). -/
inductive SvalList where
  | nil
  | cons (head : SvalValue) (tail : SvalList)
  deriving DecidableEq

/-- A list of key-value pairs (map entries). -/
inductive SvalPairs where
  | nil
  | cons (key : SvalValue) (value : SvalValue) (tail : SvalPairs)
  deriving DecidableEq

end

/-- Whether the shape is a sequence. -/
def SvalValue.isSeq : SvalValue → Bool
  | .seq _ => true
  | _ => false

/-- Whether the shape is a scalar (including text). -/
def SvalValue.isScalar : SvalValue → Bool
  | .scalar _ => true
  | _ => false

/-- Whether some top-level entry of a map has a scalar (or text) key or
value. -/
def SvalPairs.hasScalarEntry : SvalPairs → Bool
  | .nil => false
  | .cons k v rest => k.isScalar || v.isScalar || hasScalarEntry rest

/-- The `Position` enum of `src/internal/sval/v2.rs`. -/
inductive Position where
  | root
  | seqElem
  | mapKey
  | mapValue
  deriving DecidableEq

/-- A call delivered to the wrapped `InternalVisitor`: either a root-level
scalar method (`u64`, `str`, `none`, ...) or a `seq_elem`/`borrowed_seq_elem`
call carrying the element's scalar. -/
inductive VisitEvent where
  | root (p : ScalarEv)
  | seqElem (p : ScalarEv)
  deriving DecidableEq

/-- The state of `VisitorStream`/`VisitorInternal` while streaming: current
nesting depth and position, the events delivered to the inner visitor so far,
and the error that aborted the stream, if any. -/
structure StreamSt where
  depth : Nat
  position : Position
  events : List VisitEvent
  err : Option String
  deriving DecidableEq

/-- `VisitorInternal::visit`/`borrowed_visit` (`src/internal/sval/v2.rs` lines
257-293): skip silently when nested deeper than one level, forward to the
inner visitor at root or sequence-element position, and fail with
"maps are not supported" in a map-key or map-value position. Once the stream
has failed, every later step is skipped (the error aborts the stream). -/
def visitAt (st : StreamSt) (p : ScalarEv) : StreamSt :=
  if st.err.isSome then st
  else if st.depth > 1 then st
  else
    match st.position with
    | .root => { st with events := st.events ++ [.root p] }
    | .seqElem => { st with events := st.events ++ [.seqElem p] }
    | .mapKey => { st with err := some ("maps are not supported") }
    | .mapValue => { st with err := some ("maps are not supported") }

mutual

/-- Streaming a structured value through the `VisitorStream` state machine of
`src/internal/sval/v2.rs`: scalars go through `visit`/`borrowed_visit`
(`visitAt`); `seq_begin` increments the depth and, when not at depth 1, visits
an absent value; `map_begin` increments the depth and visits an absent value;
`seq_end`/`map_end` decrement the depth. -/
def streamValue : SvalValue → StreamSt → StreamSt
  | .scalar p, st => visitAt st p
  | .seq elems, st =>
    if st.err.isSome then st
    else
      let st1 : StreamSt := { st with depth := st.depth + 1 }
      let st2 := if st1.depth ≠ 1 then visitAt st1 .null else st1
      let st3 := streamList elems st2
      if st3.err.isSome then st3 else { st3 with depth := st3.depth - 1 }
  | .map entries, st =>
    if st.err.isSome then st
    else
      let st1 : StreamSt := { st with depth := st.depth + 1 }
      let st2 := visitAt st1 .null
      let st3 := streamPairs entries st2
      if st3.err.isSome then st3 else { st3 with depth := st3.depth - 1 }

/-- Streaming sequence elements: `seq_value_begin` sets the position to
`SeqElem` before each element. -/
def streamList : SvalList → StreamSt → StreamSt
  | .nil, st => st
  | .cons v rest, st =>
    if st.err.isSome then st
    else streamList rest (streamValue v { st with position := .seqElem })

/-- Streaming map entries: `map_key_begin` sets the position to `MapKey`
before each key and `map_value_begin` sets it to `MapValue` before each
value. -/
def streamPairs : SvalPairs → StreamSt → StreamSt
  | .nil, st => st
  | .cons k v rest, st =>
    if st.err.isSome then st
    else
      let st1 := streamValue k { st with position := .mapKey }
      let st2 :=
        if st1.err.isSome then st1
        else streamValue v { st1 with position := .mapValue }
      streamPairs rest st2

end

/-- The initial stream state (`depth: 0, position: Position::Root`). -/
def initStream : StreamSt := ⟨0, .root, [], Option.none⟩

/-- `internal_visit` of `src/internal/sval/v2.rs` (lines 203-219), observed as
the calls delivered to the wrapped `InternalVisitor`: `Except.error` when the
stream failed, otherwise `Except.ok` with the delivered calls. -/
def sval2Visit (v : SvalValue) : Except String (List VisitEvent) :=
  let st := streamValue v initStream
  match st.err with
  | some m => .error m
  | Option.none => .ok st.events

/-- The calls delivered to the inner visitor before the stream completed or
aborted. -/
def sval2Events (v : SvalValue) : List VisitEvent :=
  (streamValue v initStream).events

/-- The `Cast` type of `src/internal/cast/mod.rs` (lines 461-473); the
`String` variant is the `alloc` owned-string case. -/
inductive Cast where
  | signed (i : Int)
  | unsigned (n : Nat)
  | bigSigned (i : Int)
  | bigUnsigned (n : Nat)
  | float (v : F64)
  | bool (b : Bool)
  | char (c : Char)
  | str (s : String)
  | none
  | string (s : String)
  deriving DecidableEq

/-- `Cast::into_owned` (lines 477-494, with the `alloc` feature): a borrowed
string is copied into an owned one; everything else is kept. -/
def Cast.into_owned : Cast → Option Cast
  | .signed v => some (.signed v)
  | .unsigned v => some (.unsigned v)
  | .bigSigned v => some (.bigSigned v)
  | .bigUnsigned v => some (.bigUnsigned v)
  | .float v => some (.float v)
  | .bool v => some (.bool v)
  | .char v => some (.char v)
  | .none => some .none
  | .string v => some (.string v)
  | .str v => some (.string v)

/-- `Cast::into_borrowed_str` (lines 496-503). -/
def Cast.into_borrowed_str : Cast → Option String
  | .str v => some v
  | _ => Option.none

/-- `i64 -> u64` (`TryFrom`: succeeds iff the value is non-negative). -/
def tryI64toU64 (i : Int) : Option Nat :=
  if 0 ≤ i then some i.toNat else Option.none

/-- `i128 -> u64` (`TryFrom`: non-negative and at most `u64::MAX`). -/
def tryI128toU64 (i : Int) : Option Nat :=
  if 0 ≤ i ∧ i ≤ (U64MAX : Int) then some i.toNat else Option.none

/-- `u128 -> u64` (`TryFrom`: at most `u64::MAX`). -/
def tryU128toU64 (n : Nat) : Option Nat :=
  if n ≤ U64MAX then some n else Option.none

/-- `Cast::into_u64` (lines 505-514). -/
def Cast.into_u64 : Cast → Option Nat
  | .unsigned v => some v
  | .bigUnsigned v => tryU128toU64 v
  | .signed v => tryI64toU64 v
  | .bigSigned v => tryI128toU64 v
  | _ => Option.none

/-- `u64 -> i64` (`TryFrom`: at most `i64::MAX`). -/
def tryU64toI64 (n : Nat) : Option Int :=
  if n ≤ I64MAXn then some (n : Int) else Option.none

/-- `i128 -> i64` (`TryFrom`: within the `i64` range). -/
def tryI128toI64 (i : Int) : Option Int :=
  if I64MIN ≤ i ∧ i ≤ I64MAX then some i else Option.none

/-- `u128 -> i64` (`TryFrom`: at most `i64::MAX`). -/
def tryU128toI64 (n : Nat) : Option Int :=
  if n ≤ I64MAXn then some (n : Int) else Option.none

/-- `Cast::into_i64` (lines 516-525). -/
def Cast.into_i64 : Cast → Option Int
  | .signed v => some v
  | .bigSigned v => tryI128toI64 v
  | .unsigned v => tryU64toI64 v
  | .bigUnsigned v => tryU128toI64 v
  | _ => Option.none

/-- `i64 -> u128` (`TryFrom`: succeeds iff the value is non-negative). -/
def tryI64toU128 (i : Int) : Option Nat :=
  if 0 ≤ i then some i.toNat else Option.none

/-- `i128 -> u128` (`TryFrom`: succeeds iff the value is non-negative). -/
def tryI128toU128 (i : Int) : Option Nat :=
  if 0 ≤ i then some i.toNat else Option.none

/-- `Cast::into_u128` (lines 527-536): `u64` widens infallibly. -/
def Cast.into_u128 : Cast → Option Nat
  | .bigUnsigned v => some v
  | .unsigned v => some v
  | .signed v => tryI64toU128 v
  | .bigSigned v => tryI128toU128 v
  | _ => Option.none

/-- `u128 -> i128` (`TryFrom`: at most `i128::MAX`). -/
def tryU128toI128 (n : Nat) : Option Int :=
  if n ≤ I128MAXn then some (n : Int) else Option.none

/-- `Cast::into_i128` (lines 538-547): `i64` and `u64` widen infallibly. -/
def Cast.into_i128 : Cast → Option Int
  | .bigSigned v => some v
  | .signed v => some v
  | .unsigned v => some (v : Int)
  | .bigUnsigned v => tryU128toI128 v
  | _ => Option.none

/-- `Cast::into_f64` (lines 549-567): a stored float passes through; integer
sources convert through a 32-bit intermediate (`u32::try_from` /
`i32::try_from`) and are exact when they succeed. -/
def Cast.into_f64 : Cast → Option F64
  | .float v => some v
  | .unsigned v => if v ≤ U32MAX then some ((v : Nat) : F64) else Option.none
  | .signed v => if I32MIN ≤ v ∧ v ≤ I32MAX then some ((v : Int) : F64) else Option.none
  | .bigUnsigned v => if v ≤ U32MAX then some ((v : Nat) : F64) else Option.none
  | .bigSigned v => if I32MIN ≤ v ∧ v ≤ I32MAX then some ((v : Int) : F64) else Option.none
  | _ => Option.none

/-- `Cast::into_char` (lines 569-576). -/
def Cast.into_char : Cast → Option Char
  | .char v => some v
  | _ => Option.none

/-- `Cast::into_bool` (lines 578-585). -/
def Cast.into_bool : Cast → Option Bool
  | .bool v => some v
  | _ => Option.none

/-- `Cast::into_str` (lines 615-624, `alloc`): both the borrowed and the owned
string succeed (as the two `Cow` variants); the model keeps the contents. -/
def Cast.into_str : Cast → Option String
  | .str v => some v
  | .string v => some v
  | _ => Option.none

/-- `CastVisitor::str` (line 261): a short-lived string is stored as an owned
`Cast::String` via `into_owned` (falling back to `Cast::None` without
`alloc`). -/
def castVisitorStr (s : String) : Cast :=
  ((Cast.str s).into_owned).getD Cast.none

/-- The `Cast` the `CastVisitor` stores for one delivered scalar
(`src/internal/cast/mod.rs` lines 207-301): borrowed text stays a borrowed
`Str`, computed text is owned. -/
def castScalarEv : ScalarEv → Cast
  | .null => .none
  | .bool b => .bool b
  | .i64 i => .signed i
  | .u64 n => .unsigned n
  | .i128 i => .bigSigned i
  | .u128 n => .bigUnsigned n
  | .f64 v => .float v
  | .text s true => .str s
  | .text s false => castVisitorStr s

/-- Folding the delivered calls through the `CastVisitor`: each scalar call
replaces the stored cast; a `seq_elem` call stores `Cast::None` and fails with
"cannot cast complex values", aborting the visit (lines 219-222), so later
calls are not delivered. -/
def castOfEvents : Cast → List VisitEvent → Cast
  | c, [] => c
  | _, .seqElem _ :: _ => .none
  | _, .root p :: rest => castOfEvents (castScalarEv p) rest

/-- `cast()` of a structured `sval` payload: the stream drives the
`CastVisitor` through `internal_visit`; the result is whatever cast the
delivered calls left behind (a stream failure is discarded by `let _ =`). -/
def castOfSval2 (sh : SvalValue) : Cast :=
  castOfEvents Cast.none (sval2Events sh)

/-- The erased container (`Internal` in `src/internal/mod.rs`, consolidated
across the revisions in `src/`): inline primitive variants, an anonymous
sequence of element containers, and the capability variants, each in an
identified form carrying the captured concrete type's `TypeId` and an
anonymous form without it. Formatting payloads are modelled extensionally by
the text their `Debug`/`Display` implementation renders, error payloads by
their message, and structured payloads by their streamable shape. -/
inductive Internal where
  | prim (p : Primitive)
  | anonSeq (elems : List Internal)
  | debug (typeId : Nat) (rendered : String)
  | anonDebug (rendered : String)
  | display (typeId : Nat) (rendered : String)
  | anonDisplay (rendered : String)
  | error (typeId : Nat) (msg : String)
  | anonError (msg : String)
  | sval2 (typeId : Nat) (shape : SvalValue)
  | anonSval2 (shape : SvalValue)
  | serde1 (typeId : Nat) (shape : SvalValue)
  | anonSerde1 (shape : SvalValue)

/-- The direct primitive arms of `Internal::cast` (`src/internal/cast/mod.rs`
lines 303-318). -/
def Primitive.toCast : Primitive → Cast
  | .signed i => .signed i
  | .unsigned n => .unsigned n
  | .bigSigned i => .bigSigned i
  | .bigUnsigned n => .bigUnsigned n
  | .float v => .float v
  | .bool b => .bool b
  | .char c => .char c
  | .str s => .str s
  | .none => .none

/-- `Internal::cast` (`src/internal/cast/mod.rs` lines 192-326): primitives
convert directly; non-primitive variants are visited with the `CastVisitor`,
whose `debug`/`display`/`error` methods leave the cast at `Cast::None`, whose
`seq_elem` method poisons it to `Cast::None`, and whose structured methods
re-enter the stream (`castOfSval2`). The `serde1` arm delegates to the missing
`internal/serde` module; it is `Modelled from the spec:` format B streams
through the same visitor protocol symmetrically to format A. -/
def Internal.cast : Internal → Cast
  | .prim p => p.toCast
  | .anonSeq _ => .none
  | .debug _ _ => .none
  | .anonDebug _ => .none
  | .display _ _ => .none
  | .anonDisplay _ => .none
  | .error _ _ => .none
  | .anonError _ => .none
  | .sval2 _ sh => castOfSval2 sh
  | .anonSval2 sh => castOfSval2 sh
  | .serde1 _ sh => castOfSval2 sh
  | .anonSerde1 sh => castOfSval2 sh

/-- The erased container (`ValueBag` in `src/lib.rs`). -/
structure ValueBag where
  inner : Internal

/-- `ValueBag::to_u64` (`src/internal/cast/mod.rs` line 39). -/
def ValueBag.to_u64 (v : ValueBag) : Option Nat := v.inner.cast.into_u64

/-- `ValueBag::to_i64` (line 56). -/
def ValueBag.to_i64 (v : ValueBag) : Option Int := v.inner.cast.into_i64

/-- `ValueBag::to_u128` (line 73). -/
def ValueBag.to_u128 (v : ValueBag) : Option Nat := v.inner.cast.into_u128

/-- `ValueBag::to_i128` (line 90). -/
def ValueBag.to_i128 (v : ValueBag) : Option Int := v.inner.cast.into_i128

/-- `ValueBag::to_f64` (line 107). -/
def ValueBag.to_f64 (v : ValueBag) : Option F64 := v.inner.cast.into_f64

/-- `ValueBag::to_bool` (line 124). -/
def ValueBag.to_bool (v : ValueBag) : Option Bool := v.inner.cast.into_bool

/-- `ValueBag::to_char` (line 141). -/
def ValueBag.to_char (v : ValueBag) : Option Char := v.inner.cast.into_char

/-- `ValueBag::to_borrowed_str` (line 158). -/
def ValueBag.to_borrowed_str (v : ValueBag) : Option String :=
  v.inner.cast.into_borrowed_str

/-- `ValueBag::to_str` (`alloc`, line 601). -/
def ValueBag.to_str (v : ValueBag) : Option String := v.inner.cast.into_str

/-- `ValueBag::downcast_ref::<T>` (`src/internal/cast/mod.rs` lines 177-189),
observed as whether the downcast succeeds: only the identified capability
variants match, and only when the recorded `TypeId` is the queried one. -/
def ValueBag.downcast_ref (t : Nat) (v : ValueBag) : Bool :=
  match v.inner with
  | .debug tid _ => tid == t
  | .display tid _ => tid == t
  | .error tid _ => tid == t
  | .sval2 tid _ => tid == t
  | .serde1 tid _ => tid == t
  | _ => false

/-- `ValueBag::try_capture` (`src/internal/cast/mod.rs` lines 28-33): attempt
primitive type recovery on the erased reference. -/
def ValueBag.try_capture (v : AnyValue) : Option ValueBag :=
  (from_any_const_type_id v).map fun p => ⟨.prim p⟩

/-- A `T: 'static` source value handed to a `capture_*` constructor, carrying
every view the constructors need: its erased view for type recovery, its
`TypeId`, its structured shape, and its rendered `Debug`/`Display` output. -/
structure CaptureSource where
  asAny : AnyValue
  typeId : Nat
  shape : SvalValue
  debugOut : String
  displayOut : String
  deriving DecidableEq

/-- `ValueBag::capture_sval2` (`src/internal/sval/v2.rs` lines 18-25):
`Self::try_capture(value).unwrap_or` the identified structured variant. -/
def ValueBag.capture_sval2 (src : CaptureSource) : ValueBag :=
  (ValueBag.try_capture src.asAny).getD ⟨.sval2 src.typeId src.shape⟩

/-- Modelled from the spec: `ValueBag::capture_debug` lives in
`src/internal/fmt.rs`, which is absent from `src/`; per spec section 4.2 every
`capture_*` first attempts type recovery before storing the named capability
variant (the identified debug variant here). -/
def ValueBag.capture_debug (src : CaptureSource) : ValueBag :=
  (ValueBag.try_capture src.asAny).getD ⟨.debug src.typeId src.debugOut⟩

/-- Modelled from the spec: `ValueBag::capture_display` (also in the missing
`src/internal/fmt.rs`) attempts type recovery before storing the identified
display variant. -/
def ValueBag.capture_display (src : CaptureSource) : ValueBag :=
  (ValueBag.try_capture src.asAny).getD ⟨.display src.typeId src.displayOut⟩

/-- Modelled from the spec: `ValueBag::capture_serde1` (in the missing
`src/internal/serde` module) attempts type recovery before storing the
identified serde variant. -/
def ValueBag.capture_serde1 (src : CaptureSource) : ValueBag :=
  (ValueBag.try_capture src.asAny).getD ⟨.serde1 src.typeId src.shape⟩

/-- `ValueBag::capture_error` (`src/internal/error.rs` lines 11-21): stores
the identified error variant directly. Its bound `T: error::Error + 'static`
admits no primitive candidate type, so it takes only an error payload. -/
def ValueBag.capture_error (typeId : Nat) (msg : String) : ValueBag :=
  ⟨.error typeId msg⟩

/-- `ValueBag::from_dyn_error` (`src/internal/error.rs` lines 23-30): the
anonymous error variant, no `TypeId`. -/
def ValueBag.from_dyn_error (msg : String) : ValueBag :=
  ⟨.anonError msg⟩

/-- `ValueBag::to_borrowed_error` (`src/internal/error.rs` lines 32-38): only
the identified `Internal::Error` variant yields the borrowed error. -/
def ValueBag.to_borrowed_error (v : ValueBag) : Option String :=
  match v.inner with
  | .error _ msg => some msg
  | _ => Option.none

/-- `From<u8> for ValueBag` (`src/internal/mod.rs` line 209: `v as u64`). -/
def ValueBag.fromU8 (n : Nat) : ValueBag := ⟨.prim (.unsigned n)⟩

/-- `From<u16> for ValueBag` (line 216). -/
def ValueBag.fromU16 (n : Nat) : ValueBag := ⟨.prim (.unsigned n)⟩

/-- `From<u32> for ValueBag` (line 223). -/
def ValueBag.fromU32 (n : Nat) : ValueBag := ⟨.prim (.unsigned n)⟩

/-- `From<u64> for ValueBag` (line 230). -/
def ValueBag.fromU64 (n : Nat) : ValueBag := ⟨.prim (.unsigned n)⟩

/-- `From<usize> for ValueBag` (line 237: `v as u64`). -/
def ValueBag.fromUsize (n : Nat) : ValueBag := ⟨.prim (.unsigned n)⟩

/-- `From<i8> for ValueBag` (line 244: `v as i64`). -/
def ValueBag.fromI8 (i : Int) : ValueBag := ⟨.prim (.signed i)⟩

/-- `From<i16> for ValueBag` (line 251). -/
def ValueBag.fromI16 (i : Int) : ValueBag := ⟨.prim (.signed i)⟩

/-- `From<i32> for ValueBag` (line 258). -/
def ValueBag.fromI32 (i : Int) : ValueBag := ⟨.prim (.signed i)⟩

/-- `From<i64> for ValueBag` (line 265). -/
def ValueBag.fromI64 (i : Int) : ValueBag := ⟨.prim (.signed i)⟩

/-- `From<isize> for ValueBag` (line 272: `v as i64`). -/
def ValueBag.fromIsize (i : Int) : ValueBag := ⟨.prim (.signed i)⟩

/-- Modelled from the spec: `From<u128> for ValueBag` lives in the missing
`impls.rs`; per spec section 4.1 the conversion is total and lossless into
the 128-bit carrier. -/
def ValueBag.fromU128 (n : Nat) : ValueBag := ⟨.prim (.bigUnsigned n)⟩

/-- Modelled from the spec: `From<i128> for ValueBag` (missing `impls.rs`),
lossless into the 128-bit signed carrier. -/
def ValueBag.fromI128 (i : Int) : ValueBag := ⟨.prim (.bigSigned i)⟩

/-- `From<f64> for ValueBag` (`src/internal/mod.rs` line 286). -/
def ValueBag.fromF64 (v : F64) : ValueBag := ⟨.prim (.float v)⟩

/-- `From<bool> for ValueBag` (line 293). -/
def ValueBag.fromBool (b : Bool) : ValueBag := ⟨.prim (.bool b)⟩

/-- `From<&str> for ValueBag` (line 307). -/
def ValueBag.fromStr (s : String) : ValueBag := ⟨.prim (.str s)⟩

/-- The primitive `ValueBag` a streamed sequence element is wrapped in before
being handed to `seq_elem` (`VisitorInternal::visit` passes the streamed
scalar through `Into<ValueBag>`). -/
def primOfScalarEv : ScalarEv → Primitive
  | .null => .none
  | .bool b => .bool b
  | .i64 i => .signed i
  | .u64 n => .unsigned n
  | .i128 i => .bigSigned i
  | .u128 n => .bigUnsigned n
  | .f64 v => .float v
  | .text s _ => .str s

/-- One entry of a structured sequence extension. Modelled from the spec: the
`sval::v2::seq` module referenced by `src/internal/seq.rs` is absent from
`src/`; per the spec, each scalar element undergoes the same single-element
cast and any element that fails (including nested containers) becomes an
explicit absent entry rather than being dropped. -/
def svalSeqEntry (castF : Internal → Option α) : SvalValue → Option α
  | .scalar p => castF (.prim (primOfScalarEv p))
  | _ => Option.none

/-- The entries of a structured sequence extension, in stream order. -/
def svalSeqEntries (castF : Internal → Option α) : SvalList → List (Option α)
  | .nil => []
  | .cons v rest => svalSeqEntry castF v :: svalSeqEntries castF rest

/-- Structured sequence extension: `Some` exactly for a sequence-shaped
payload. -/
def svalSeqExtend (castF : Internal → Option α) : SvalValue → Option (List (Option α))
  | .seq l => some (svalSeqEntries castF l)
  | _ => Option.none

/-- `Internal::extend` (`src/internal/seq.rs` lines 321-458): the `SeqVisitor`
leaves `None` for every scalar and formatting variant; a sequence builds the
collection by extending it once per element with that element's attempted
cast (`ExtendPrimitive::extend`, lines 304-310); structured variants delegate
to the structured sequence extension. -/
def Internal.extendWith (castF : Internal → Option α) : Internal → Option (List (Option α))
  | .anonSeq elems => some (elems.map fun e => castF e)
  | .sval2 _ sh => svalSeqExtend castF sh
  | .anonSval2 sh => svalSeqExtend castF sh
  | .serde1 _ sh => svalSeqExtend castF sh
  | .anonSerde1 sh => svalSeqExtend castF sh
  | _ => Option.none

/-- Whether the container is sequence-shaped (an anonymous sequence, or a
structured payload whose shape is a sequence). -/
def Internal.isSeqShaped : Internal → Bool
  | .anonSeq _ => true
  | .sval2 _ sh => sh.isSeq
  | .anonSval2 sh => sh.isSeq
  | .serde1 _ sh => sh.isSeq
  | .anonSerde1 sh => sh.isSeq
  | _ => false

/-- The per-element cast used by `to_u64_seq` (`ExtendPrimitive` applies
`TryFrom<ValueBag>`, whose `u64` impl is `to_u64`; the impl itself lives in
the missing `impls.rs` and is modelled from the spec's rule that each element
undergoes the same single-element cast). -/
def elemU64 (e : Internal) : Option Nat := e.cast.into_u64

/-- The per-element cast used by `to_i64_seq`. -/
def elemI64 (e : Internal) : Option Int := e.cast.into_i64

/-- The per-element cast used by `to_u128_seq`. -/
def elemU128 (e : Internal) : Option Nat := e.cast.into_u128

/-- The per-element cast used by `to_i128_seq`. -/
def elemI128 (e : Internal) : Option Int := e.cast.into_i128

/-- The per-element cast used by `to_f64_seq`. -/
def elemF64 (e : Internal) : Option F64 := e.cast.into_f64

/-- The per-element cast used by `to_bool_seq`. -/
def elemBool (e : Internal) : Option Bool := e.cast.into_bool

/-- `ValueBag::to_u64_seq` (`src/internal/seq.rs` lines 32-36), with the
collection `S` instantiated at the canonical in-order collection `List`. -/
def ValueBag.to_u64_seq (v : ValueBag) : Option (List (Option Nat)) :=
  v.inner.extendWith elemU64

/-- `ValueBag::to_i64_seq` (lines 44-48). -/
def ValueBag.to_i64_seq (v : ValueBag) : Option (List (Option Int)) :=
  v.inner.extendWith elemI64

/-- `ValueBag::to_u128_seq` (lines 56-60). -/
def ValueBag.to_u128_seq (v : ValueBag) : Option (List (Option Nat)) :=
  v.inner.extendWith elemU128

/-- `ValueBag::to_i128_seq` (lines 68-72). -/
def ValueBag.to_i128_seq (v : ValueBag) : Option (List (Option Int)) :=
  v.inner.extendWith elemI128

/-- `ValueBag::to_f64_seq` (lines 80-84). -/
def ValueBag.to_f64_seq (v : ValueBag) : Option (List (Option F64)) :=
  v.inner.extendWith elemF64

/-- `ValueBag::to_bool_seq` (lines 120-124). -/
def ValueBag.to_bool_seq (v : ValueBag) : Option (List (Option Bool)) :=
  v.inner.extendWith elemBool

/-- The owned container's internals. Modelled from the spec: the
`internal/owned` module is absent from `src/`; per spec section 4.6 and the
tests in `src/owned.rs`, buffering copies a primitive (materialising the text
case), pre-renders a `Debug`/`Display`/error payload into its formatted text,
buffers a structured payload into a self-contained snapshot of its shape, and
buffers a sequence element-wise. The thread-shared `Shared*` variants of the
owned `capture_owned_*` constructors are unrelated to the round-trip claims
and are not modelled. -/
inductive OwnedInternal where
  | prim (p : Primitive)
  | seq (elems : List OwnedInternal)
  | debug (rendered : String)
  | display (rendered : String)
  | error (msg : String)
  | sval2 (shape : SvalValue)
  | serde1 (shape : SvalValue)

mutual

/-- `ValueBag::to_owned` on the internals. Modelled from the spec (the
`internal/owned` module is missing): every variant buffers into the
corresponding owned variant, keeping its rendered text, message or shape, and
dropping the type identity. -/
def Internal.to_owned : Internal → OwnedInternal
  | .prim p => .prim p
  | .anonSeq elems => .seq (toOwnedElems elems)
  | .debug _ s => .debug s
  | .anonDebug s => .debug s
  | .display _ s => .display s
  | .anonDisplay s => .display s
  | .error _ m => .error m
  | .anonError m => .error m
  | .sval2 _ sh => .sval2 sh
  | .anonSval2 sh => .sval2 sh
  | .serde1 _ sh => .serde1 sh
  | .anonSerde1 sh => .serde1 sh

/-- Element-wise buffering of a sequence (`seq::owned::buffer` in
`src/internal/seq.rs`). -/
def toOwnedElems : List Internal → List OwnedInternal
  | [] => []
  | e :: rest => Internal.to_owned e :: toOwnedElems rest

end

mutual

/-- `OwnedValueBag::by_ref` on the internals (`src/owned.rs` lines 116-120;
the mapping to the anonymous variants follows the assertions of the
`*_to_owned` tests in `src/owned.rs`): every buffered payload re-projects into
the anonymous (non-downcastable) variant carrying the buffered data. -/
def OwnedInternal.by_ref : OwnedInternal → Internal
  | .prim p => .prim p
  | .seq elems => .anonSeq (byRefElems elems)
  | .debug s => .anonDebug s
  | .display s => .anonDisplay s
  | .error m => .anonError m
  | .sval2 sh => .anonSval2 sh
  | .serde1 sh => .anonSerde1 sh

/-- Element-wise re-projection of a buffered sequence. -/
def byRefElems : List OwnedInternal → List Internal
  | [] => []
  | e :: rest => OwnedInternal.by_ref e :: byRefElems rest

end

/-- The owned container (`OwnedValueBag` in `src/owned.rs`). -/
structure OwnedValueBag where
  inner : OwnedInternal

/-- `ValueBag::to_owned` (`src/owned.rs` lines 23-27). -/
def ValueBag.to_owned (v : ValueBag) : OwnedValueBag := ⟨v.inner.to_owned⟩

/-- `OwnedValueBag::by_ref` (`src/owned.rs` lines 116-120). -/
def OwnedValueBag.by_ref (v : OwnedValueBag) : ValueBag := ⟨v.inner.by_ref⟩

/-- Once the stream has failed, streaming further map entries changes
nothing. -/
theorem streamPairs_of_err (ps : SvalPairs) (st : StreamSt) (h : st.err.isSome) :
    streamPairs ps st = st := by
  cases ps with
  | nil => rfl
  | cons k v rest => simp [streamPairs, h]

mutual

/-- Streaming any value in an unfailed state at depth at least 2 is silently
skipped: it delivers nothing, raises no error, and leaves the state unchanged
except possibly the position marker. -/
theorem streamValue_deep (v : SvalValue) (d : Nat) (pos : Position)
    (ev : List VisitEvent) (h2 : 2 ≤ d) :
    ∃ q, streamValue v ⟨d, pos, ev, Option.none⟩ = ⟨d, q, ev, Option.none⟩ := by
  cases v with
  | scalar p =>
    have hd : 1 < d := by omega
    exact ⟨pos, by simp [streamValue, visitAt, hd]⟩
  | seq l =>
    obtain ⟨q, hl⟩ := streamList_deep l (d + 1) pos ev (by omega)
    have hne : d + 1 ≠ 1 := by omega
    have hgt : 1 < d + 1 := by omega
    exact ⟨q, by simp [streamValue, visitAt, hne, hgt, hl]⟩
  | map ps =>
    obtain ⟨q, hp⟩ := streamPairs_deep ps (d + 1) pos ev (by omega)
    have hgt : 1 < d + 1 := by omega
    exact ⟨q, by simp [streamValue, visitAt, hgt, hp]⟩

/-- Streaming sequence elements at depth at least 2 is silently skipped. -/
theorem streamList_deep (l : SvalList) (d : Nat) (pos : Position)
    (ev : List VisitEvent) (h2 : 2 ≤ d) :
    ∃ q, streamList l ⟨d, pos, ev, Option.none⟩ = ⟨d, q, ev, Option.none⟩ := by
  cases l with
  | nil => exact ⟨pos, rfl⟩
  | cons v rest =>
    obtain ⟨q1, hv⟩ := streamValue_deep v d .seqElem ev h2
    obtain ⟨q2, hr⟩ := streamList_deep rest d q1 ev h2
    exact ⟨q2, by simp [streamList, hv, hr]⟩

/-- Streaming map entries at depth at least 2 is silently skipped. -/
theorem streamPairs_deep (ps : SvalPairs) (d : Nat) (pos : Position)
    (ev : List VisitEvent) (h2 : 2 ≤ d) :
    ∃ q, streamPairs ps ⟨d, pos, ev, Option.none⟩ = ⟨d, q, ev, Option.none⟩ := by
  cases ps with
  | nil => exact ⟨pos, rfl⟩
  | cons k v rest =>
    obtain ⟨q1, hk⟩ := streamValue_deep k d .mapKey ev h2
    obtain ⟨q2, hv⟩ := streamValue_deep v d .mapValue ev h2
    obtain ⟨q3, hr⟩ := streamPairs_deep rest d q2 ev h2
    exact ⟨q3, by simp [streamPairs, hk, hv, hr]⟩

end

/-- A container (sequence or map) streamed in an unfailed state at depth 1
completes without error and without delivering anything: its own begin-visit
happens at depth 2 and its contents sit at depth at least 2, so everything is
skipped and only the position marker may change. -/
theorem streamValue_container_at_one (v : SvalValue) (hv : v.isScalar = false)
    (pos : Position) (ev : List VisitEvent) :
    ∃ q, streamValue v ⟨1, pos, ev, Option.none⟩ = ⟨1, q, ev, Option.none⟩ := by
  cases v with
  | scalar p => simp [SvalValue.isScalar] at hv
  | seq l =>
    obtain ⟨q, hl⟩ := streamList_deep l 2 pos ev (by omega)
    exact ⟨q, by simp [streamValue, visitAt, hl]⟩
  | map ps =>
    obtain ⟨q, hp⟩ := streamPairs_deep ps 2 pos ev (by omega)
    exact ⟨q, by simp [streamValue, visitAt, hp]⟩

/-- Streaming the entries of a root-level map (depth 1): the visit fails with
"maps are not supported" exactly when some entry has a scalar (or text) key
or value; otherwise every entry is silently skipped. The error fires at the
first scalar reached, whether it sits in key or value position and in
whichever entry. -/
theorem streamPairs_root (ps : SvalPairs) (pos : Position) (ev : List VisitEvent) :
    (ps.hasScalarEntry = true →
      (streamPairs ps ⟨1, pos, ev, Option.none⟩).err = some ("maps are not supported")) ∧
    (ps.hasScalarEntry = false →
      ∃ q, streamPairs ps ⟨1, pos, ev, Option.none⟩ = ⟨1, q, ev, Option.none⟩) := by
  cases ps with
  | nil =>
    refine ⟨?_, fun _ => ⟨pos, rfl⟩⟩
    intro h
    simp [SvalPairs.hasScalarEntry] at h
  | cons k v rest =>
    by_cases hks : k.isScalar = true
    · obtain ⟨p, rfl⟩ : ∃ p, k = .scalar p := by
        cases k <;> simp_all [SvalValue.isScalar]
      have hk : streamValue (.scalar p) ⟨1, .mapKey, ev, Option.none⟩ =
          ⟨1, .mapKey, ev, some ("maps are not supported")⟩ := by
        simp [streamValue, visitAt]
      have h2 := streamPairs_of_err rest
        ⟨1, .mapKey, ev, some ("maps are not supported")⟩ rfl
      refine ⟨fun _ => ?_, fun hfalse => ?_⟩
      · simp [streamPairs, hk, h2]
      · simp [SvalPairs.hasScalarEntry, SvalValue.isScalar] at hfalse
    · have hkc : k.isScalar = false := by simpa using hks
      obtain ⟨q1, hk⟩ := streamValue_container_at_one k hkc .mapKey ev
      by_cases hvs : v.isScalar = true
      · obtain ⟨p, rfl⟩ : ∃ p, v = .scalar p := by
          cases v <;> simp_all [SvalValue.isScalar]
        have hv2 : streamValue (.scalar p) ⟨1, .mapValue, ev, Option.none⟩ =
            ⟨1, .mapValue, ev, some ("maps are not supported")⟩ := by
          simp [streamValue, visitAt]
        have h2 := streamPairs_of_err rest
          ⟨1, .mapValue, ev, some ("maps are not supported")⟩ rfl
        refine ⟨fun _ => ?_, fun hfalse => ?_⟩
        · simp [streamPairs, hk, hv2, h2]
        · simp [SvalPairs.hasScalarEntry, SvalValue.isScalar] at hfalse
      · have hvc : v.isScalar = false := by simpa using hvs
        obtain ⟨q2, hv2⟩ := streamValue_container_at_one v hvc .mapValue ev
        have ih := streamPairs_root rest q2 ev
        refine ⟨fun htrue => ?_, fun hfalse => ?_⟩
        · have hrest : rest.hasScalarEntry = true := by
            simp_all [SvalPairs.hasScalarEntry]
          have he := ih.1 hrest
          simpa [streamPairs, hk, hv2] using he
        · have hrest : rest.hasScalarEntry = false := by
            simp_all [SvalPairs.hasScalarEntry]
          obtain ⟨q3, h3⟩ := ih.2 hrest
          exact ⟨q3, by simp [streamPairs, hk, hv2, h3]⟩

/-- C1: every `capture_*` constructor applied to a reference whose concrete
type is a supported primitive source type first performs type recovery and
stores the recovered primitive instead of the named capability variant; in
particular `ValueBag::capture_debug(&1u8).to_u64()` is `Some(1)` without
touching the `Debug` output. (`capture_error` is not quantified: its
`T: error::Error + 'static` bound admits no primitive source type.) -/
theorem capture_primitive_precedence :
    (∀ (src : CaptureSource) (p : Primitive),
      from_any_const_type_id src.asAny = some p →
        ValueBag.capture_debug src = ⟨.prim p⟩ ∧
        ValueBag.capture_display src = ⟨.prim p⟩ ∧
        ValueBag.capture_sval2 src = ⟨.prim p⟩ ∧
        ValueBag.capture_serde1 src = ⟨.prim p⟩) ∧
    (∀ src : CaptureSource, src.asAny = .direct (.vu8 1) →
      ValueBag.capture_debug src = ⟨.prim (.unsigned 1)⟩ ∧
      (ValueBag.capture_debug src).to_u64 = some 1) := by
  constructor
  · intro src p h
    simp [ValueBag.capture_debug, ValueBag.capture_display, ValueBag.capture_sval2,
      ValueBag.capture_serde1, ValueBag.try_capture, h]
  · intro src h
    constructor
    · simp [ValueBag.capture_debug, ValueBag.try_capture, h, from_any_const_type_id,
        Primitive.fromScalar]
    · simp [ValueBag.capture_debug, ValueBag.try_capture, h, from_any_const_type_id,
        Primitive.fromScalar, ValueBag.to_u64, Internal.cast, Primitive.toCast,
        Cast.into_u64]

/-- Witness for C1 at the concrete input `&1u8`. -/
theorem capture_primitive_precedence_witness :
    ValueBag.capture_debug ⟨.direct (.vu8 1), 0, .scalar (.u64 1), "1", "1"⟩ =
      ⟨.prim (.unsigned 1)⟩ ∧
    (ValueBag.capture_debug ⟨.direct (.vu8 1), 0, .scalar (.u64 1), "1", "1"⟩).to_u64 =
      some 1 :=
  capture_primitive_precedence.2 ⟨.direct (.vu8 1), 0, .scalar (.u64 1), "1", "1"⟩ rfl

/-- C2: the three type-recovery strategies are claimed to agree on every
input. The compile-time strategy and the startup-table strategy do agree
everywhere, but the fallback strategy's candidate list has no entry for the
unsized `str` type, so for a `str` input the first two recover the borrowed
string while the fallback returns `None` — the divergence behind the
`code_bug` verdict (the crate's own `primitive_capture_str` test asserts that
capturing a `str` succeeds). -/
theorem recovery_strategies_str_divergence :
    from_any_const_type_id (.strVal "a string") = some (.str "a string") ∧
    from_any_ctor (.strVal "a string") = some (.str "a string") ∧
    from_any_fallback (.strVal "a string") = Option.none ∧
    (∀ v : AnyValue, from_any_ctor v = from_any_const_type_id v) := by
  refine ⟨rfl, rfl, rfl, ?_⟩
  intro v
  cases v with
  | direct s => cases s <;> rfl
  | someOf s => cases s <;> rfl
  | noneOf t => cases t <;> rfl
  | strVal s => rfl
  | other => rfl

/-- C3: every `to_*_seq` operation returns `None` when the container is not
sequence-shaped; on a sequence of `n` elements it returns `Some` of a
collection with exactly `n` entries in input order, entry `i` being the
single-element cast of element `i`, with failed casts kept as explicit `None`
entries — shown by the map equality (which fixes both length and index
alignment) and by the spec's mixed `[1, "x", 2, 3]` example. -/
theorem seq_cast_alignment :
    (∀ i : Internal, i.isSeqShaped = false →
      ValueBag.to_u64_seq ⟨i⟩ = Option.none ∧
      ValueBag.to_i64_seq ⟨i⟩ = Option.none ∧
      ValueBag.to_u128_seq ⟨i⟩ = Option.none ∧
      ValueBag.to_i128_seq ⟨i⟩ = Option.none ∧
      ValueBag.to_f64_seq ⟨i⟩ = Option.none ∧
      ValueBag.to_bool_seq ⟨i⟩ = Option.none) ∧
    (∀ elems : List Internal,
      ValueBag.to_u64_seq ⟨.anonSeq elems⟩ = some (elems.map elemU64) ∧
      ValueBag.to_i64_seq ⟨.anonSeq elems⟩ = some (elems.map elemI64) ∧
      ValueBag.to_u128_seq ⟨.anonSeq elems⟩ = some (elems.map elemU128) ∧
      ValueBag.to_i128_seq ⟨.anonSeq elems⟩ = some (elems.map elemI128) ∧
      ValueBag.to_f64_seq ⟨.anonSeq elems⟩ = some (elems.map elemF64) ∧
      ValueBag.to_bool_seq ⟨.anonSeq elems⟩ = some (elems.map elemBool)) ∧
    (∀ elems : List Internal,
      (ValueBag.to_u64_seq ⟨.anonSeq elems⟩).map List.length = some elems.length) ∧
    (ValueBag.to_f64_seq ⟨.anonSeq [.prim (.unsigned 1), .prim (.str "x"),
        .prim (.unsigned 2), .prim (.unsigned 3)]⟩ =
      some [some 1, Option.none, some 2, some 3]) := by
  refine ⟨?_, ?_, ?_, rfl⟩
  · intro i h
    cases i <;>
      simp_all [Internal.isSeqShaped, ValueBag.to_u64_seq, ValueBag.to_i64_seq,
        ValueBag.to_u128_seq, ValueBag.to_i128_seq, ValueBag.to_f64_seq,
        ValueBag.to_bool_seq, Internal.extendWith] <;>
      (rename_i sh; cases sh <;> simp_all [SvalValue.isSeq, svalSeqExtend])
  · intro elems
    exact ⟨rfl, rfl, rfl, rfl, rfl, rfl⟩
  · intro elems
    simp [ValueBag.to_u64_seq, Internal.extendWith]

/-- Witness for C3: a non-sequence container yields `None`. -/
theorem seq_cast_alignment_witness :
    ValueBag.to_u64_seq ⟨.prim .none⟩ = Option.none :=
  (seq_cast_alignment.1 (.prim .none) rfl).1

/-- C4: `to_f64` on an integer source succeeds exactly when the integer fits
the 32-bit intermediate (`u32` for unsigned sources, `i32` for signed ones),
returning the exact value; wide integers outside that range give `None`
rather than a lossy float, and a stored float source is returned as-is. -/
theorem to_f64_lossless_rule :
    (∀ n : Nat, (ValueBag.fromU64 n).to_f64 =
      if n ≤ U32MAX then some ((n : Nat) : F64) else Option.none) ∧
    (∀ i : Int, (ValueBag.fromI64 i).to_f64 =
      if I32MIN ≤ i ∧ i ≤ I32MAX then some ((i : Int) : F64) else Option.none) ∧
    (∀ n : Nat, (ValueBag.fromU128 n).to_f64 =
      if n ≤ U32MAX then some ((n : Nat) : F64) else Option.none) ∧
    (∀ i : Int, (ValueBag.fromI128 i).to_f64 =
      if I32MIN ≤ i ∧ i ≤ I32MAX then some ((i : Int) : F64) else Option.none) ∧
    (∀ v : F64, (ValueBag.fromF64 v).to_f64 = some v) :=
  ⟨fun _ => rfl, fun _ => rfl, fun _ => rfl, fun _ => rfl, fun _ => rfl⟩

/-- C5: for every captured integer value, the cross-signedness casts
`to_u64`, `to_i64`, `to_u128` and `to_i128` succeed exactly when the stored
value is representable in the target width and signedness: negative signed
values fail unsigned targets, and unsigned values above the signed target's
maximum fail signed targets. -/
theorem cross_signedness_casts :
    (∀ i : Int, isI64 i →
      ((Cast.signed i).into_u64.isSome ↔ (0 ≤ i ∧ i ≤ (U64MAX : Int)))) ∧
    (∀ i : Int, isI128 i →
      ((Cast.bigSigned i).into_u64.isSome ↔ (0 ≤ i ∧ i ≤ (U64MAX : Int)))) ∧
    (∀ n : Nat, isU128 n → ((Cast.bigUnsigned n).into_u64.isSome ↔ n ≤ U64MAX)) ∧
    (∀ n : Nat, isU64 n → ((Cast.unsigned n).into_i64.isSome ↔ (n : Int) ≤ I64MAX)) ∧
    (∀ n : Nat, isU128 n → ((Cast.bigUnsigned n).into_i64.isSome ↔ (n : Int) ≤ I64MAX)) ∧
    (∀ i : Int, isI128 i →
      ((Cast.bigSigned i).into_i64.isSome ↔ (I64MIN ≤ i ∧ i ≤ I64MAX))) ∧
    (∀ i : Int, isI64 i →
      ((Cast.signed i).into_u128.isSome ↔ (0 ≤ i ∧ i ≤ (U128MAX : Int)))) ∧
    (∀ i : Int, isI128 i →
      ((Cast.bigSigned i).into_u128.isSome ↔ (0 ≤ i ∧ i ≤ (U128MAX : Int)))) ∧
    (∀ n : Nat, isU128 n → ((Cast.bigUnsigned n).into_i128.isSome ↔ (n : Int) ≤ I128MAX)) ∧
    (∀ n : Nat, isU64 n →
      ((Cast.unsigned n).into_u128 = some n ∧ (Cast.unsigned n).into_i128 = some (n : Int))) ∧
    (∀ i : Int, isI64 i → (Cast.signed i).into_i128 = some i) := by
  refine ⟨?_, ?_, ?_, ?_, ?_, ?_, ?_, ?_, ?_, ?_, ?_⟩
  · intro i hi
    simp only [Cast.into_u64, tryI64toU64, isI64, I64MIN, I64MAX, U64MAX] at *
    split <;> simp_all <;> omega
  · intro i hi
    simp only [Cast.into_u64, tryI128toU64, isI128, I128MIN, I128MAX, U64MAX] at *
    split <;> simp_all
  · intro n hn
    simp only [Cast.into_u64, tryU128toU64, isU128, U128MAX, U64MAX] at *
    split <;> simp_all
  · intro n hn
    simp only [Cast.into_i64, tryU64toI64, isU64, U64MAX, I64MAXn, I64MAX] at *
    split <;> simp_all 
  · intro n hn
    simp only [Cast.into_i64, tryU128toI64, isU128, U128MAX, I64MAXn, I64MAX] at *
    split <;> simp_all 
  · intro i hi
    simp only [Cast.into_i64, tryI128toI64, isI128] at *
    split <;> simp_all
  · intro i hi
    simp only [Cast.into_u128, tryI64toU128, isI64, I64MIN, I64MAX, U128MAX] at *
    split <;> simp_all <;> omega
  · intro i hi
    simp only [Cast.into_u128, tryI128toU128, isI128, I128MIN, I128MAX, U128MAX] at *
    split <;> simp_all <;> omega
  · intro n hn
    simp only [Cast.into_i128, tryU128toI128, isU128, U128MAX, I128MAXn, I128MAX] at *
    split <;> simp_all 
  · intro n _
    exact ⟨rfl, rfl⟩
  · intro i _
    rfl

/-- Witness for C5: `-1i64` fails the `u64` target and `u64::MAX` fails the
`i64` target. -/
theorem cross_signedness_casts_witness :
    ((Cast.signed (-1 : Int)).into_u64.isSome ↔
      ((0 : Int) ≤ -1 ∧ (-1 : Int) ≤ (U64MAX : Int))) ∧
    ((Cast.unsigned U64MAX).into_i64.isSome ↔ ((U64MAX : Nat) : Int) ≤ I64MAX) :=
  ⟨cross_signedness_casts.1 (-1) (by constructor <;> decide),
    cross_signedness_casts.2.2.2.1 U64MAX (Nat.le_refl U64MAX)⟩

/-- C6: for every supported integer width and signedness, `from(x)` followed
by the matching accessor through the widened 64/128-bit carrier returns
`Some(x)`, and an out-of-range conversion such as `from(-1i64).to_u64()`
returns `None`. -/
theorem integer_round_trip :
    (∀ n : Nat, n < 2 ^ 8 → (ValueBag.fromU8 n).to_u64 = some n) ∧
    (∀ n : Nat, n < 2 ^ 16 → (ValueBag.fromU16 n).to_u64 = some n) ∧
    (∀ n : Nat, n < 2 ^ 32 → (ValueBag.fromU32 n).to_u64 = some n) ∧
    (∀ n : Nat, n < 2 ^ 64 → (ValueBag.fromU64 n).to_u64 = some n) ∧
    (∀ n : Nat, n < 2 ^ 64 → (ValueBag.fromUsize n).to_u64 = some n) ∧
    (∀ n : Nat, n < 2 ^ 128 → (ValueBag.fromU128 n).to_u128 = some n) ∧
    (∀ i : Int, -(2 ^ 7) ≤ i ∧ i < 2 ^ 7 → (ValueBag.fromI8 i).to_i64 = some i) ∧
    (∀ i : Int, -(2 ^ 15) ≤ i ∧ i < 2 ^ 15 → (ValueBag.fromI16 i).to_i64 = some i) ∧
    (∀ i : Int, -(2 ^ 31) ≤ i ∧ i < 2 ^ 31 → (ValueBag.fromI32 i).to_i64 = some i) ∧
    (∀ i : Int, -(2 ^ 63) ≤ i ∧ i < 2 ^ 63 → (ValueBag.fromI64 i).to_i64 = some i) ∧
    (∀ i : Int, -(2 ^ 63) ≤ i ∧ i < 2 ^ 63 → (ValueBag.fromIsize i).to_i64 = some i) ∧
    (∀ i : Int, -(2 ^ 127) ≤ i ∧ i < 2 ^ 127 → (ValueBag.fromI128 i).to_i128 = some i) ∧
    ((ValueBag.fromI64 (-1)).to_u64 = Option.none) :=
  ⟨fun _ _ => rfl, fun _ _ => rfl, fun _ _ => rfl, fun _ _ => rfl, fun _ _ => rfl,
    fun _ _ => rfl, fun _ _ => rfl, fun _ _ => rfl, fun _ _ => rfl, fun _ _ => rfl,
    fun _ _ => rfl, fun _ _ => rfl, rfl⟩

/-- Witness for C6 at concrete inputs of each signedness. -/
theorem integer_round_trip_witness :
    (ValueBag.fromU8 42).to_u64 = some 42 ∧
    (ValueBag.fromI128 (-42)).to_i128 = some (-42) :=
  ⟨integer_round_trip.1 42 (by decide),
    integer_round_trip.2.2.2.2.2.2.2.2.2.2.2.1 (-42) (by norm_num [])⟩

/-- C7: `to_borrowed_str` succeeds exactly when the underlying data is
already a borrowed string; a string produced transiently during visiting is
stored owned by the cast visitor, so it fails the borrowed accessor but
succeeds the allocating `to_str` accessor; a string borrowed for the
container's lifetime succeeds both. -/
theorem borrowed_str_access :
    (∀ c : Cast, (c.into_borrowed_str).isSome ↔ ∃ s, c = .str s) ∧
    (∀ s : String, castVisitorStr s = .string s) ∧
    (∀ s : String, (Cast.string s).into_borrowed_str = Option.none) ∧
    (∀ s : String, (Cast.string s).into_str = some s) ∧
    (∀ s : String, (Cast.str s).into_str = some s) ∧
    (∀ s : String, (ValueBag.fromStr s).to_borrowed_str = some s) ∧
    (∀ s : String,
      (ValueBag.mk (.anonSval2 (.scalar (.text s false)))).to_borrowed_str = Option.none) ∧
    (∀ s : String, (ValueBag.mk (.anonSval2 (.scalar (.text s false)))).to_str = some s) ∧
    (∀ s : String,
      (ValueBag.mk (.anonSval2 (.scalar (.text s true)))).to_borrowed_str = some s) := by
  refine ⟨?_, fun _ => rfl, fun _ => rfl, fun _ => rfl, fun _ => rfl, fun _ => rfl,
    fun _ => rfl, fun _ => rfl, fun _ => rfl⟩
  intro c
  cases c <;> simp [Cast.into_borrowed_str]

/-- C8 counterexample: the claim says map-shaped data or nesting deeper than
one level makes the visit return an explicit error; but the stream silently
skips data nested deeper than one level (a sequence inside a sequence visits
successfully and delivers nothing), and an empty map visits successfully as
an absent value. -/
theorem unsupported_shape_counterexample :
    sval2Visit (.seq (.cons (.seq (.cons (.scalar (.i64 1)) .nil)) .nil)) = .ok [] ∧
    sval2Visit (.map .nil) = .ok [.root .null] :=
  ⟨rfl, rfl⟩

/-- C8 (amended): a scalar or text value streamed in a map key or map value
position at depth at most one makes the visit fail with the explicit error
"maps are not supported": visiting a root-level map fails exactly when some
top-level entry has a scalar (or text) key or value — whether it is a key or
a value, and in whichever entry it sits; a map whose top-level keys and
values are all nested containers (or an empty map) visits successfully as an
absent value, nesting deeper than the supported one level is silently skipped
with the visit returning success, and no visit panics (the model is a total
function). -/
theorem map_visit_error_amended :
    (∀ ps : SvalPairs,
      sval2Visit (.map ps) =
        if ps.hasScalarEntry = true then .error ("maps are not supported")
        else .ok [.root .null]) ∧
    (∀ (p : ScalarEv) (v : SvalValue) (rest : SvalPairs),
      sval2Visit (.map (.cons (.scalar p) v rest)) = .error ("maps are not supported")) ∧
    (∀ (p : ScalarEv) (l : SvalList) (rest : SvalPairs),
      sval2Visit (.map (.cons (.seq l) (.scalar p) rest)) =
        .error ("maps are not supported")) ∧
    (∀ (p : ScalarEv) (v2 : SvalValue) (rest : SvalPairs),
      sval2Visit (.map (.cons (.seq .nil) (.map .nil) (.cons (.scalar p) v2 rest))) =
        .error ("maps are not supported")) ∧
    sval2Visit (.seq (.cons (.seq (.cons (.scalar (.bool true)) .nil)) .nil)) = .ok [] ∧
    sval2Visit (.map .nil) = .ok [.root .null] := by
  have hmain : ∀ ps : SvalPairs,
      sval2Visit (.map ps) =
        if ps.hasScalarEntry = true then .error ("maps are not supported")
        else .ok [.root .null] := by
    intro ps
    have h := streamPairs_root ps .root [.root .null]
    by_cases hs : ps.hasScalarEntry = true
    · have he := h.1 hs
      simp [sval2Visit, streamValue, visitAt, initStream, hs] at he ⊢
      simp [he]
    · have hs2 : ps.hasScalarEntry = false := by simpa using hs
      obtain ⟨q, h3⟩ := h.2 hs2
      simp [sval2Visit, streamValue, visitAt, initStream, hs2] at h3 ⊢
      simp [h3]
  refine ⟨hmain, ?_, ?_, ?_, rfl, rfl⟩
  · intro p v rest
    rw [hmain]
    simp [SvalPairs.hasScalarEntry, SvalValue.isScalar]
  · intro p l rest
    rw [hmain]
    simp [SvalPairs.hasScalarEntry, SvalValue.isScalar]
  · intro p v2 rest
    rw [hmain]
    simp [SvalPairs.hasScalarEntry, SvalValue.isScalar]

/-- C9: round-tripping any identified (downcast-capable) capture through
owned buffering, `v.to_owned().by_ref()`, yields the anonymous variant with
the same rendered text, message or shape — so its displayed/debug output is
unchanged — while `downcast_ref` against the originally captured type now
fails even though it succeeded before the round trip. -/
theorem owned_round_trip_downcast :
    ∀ (t : Nat) (s m : String) (sh : SvalValue),
      ((ValueBag.mk (.debug t s)).to_owned.by_ref = ⟨.anonDebug s⟩ ∧
        ValueBag.downcast_ref t ⟨.debug t s⟩ = true ∧
        ValueBag.downcast_ref t ((ValueBag.mk (.debug t s)).to_owned.by_ref) = false) ∧
      ((ValueBag.mk (.display t s)).to_owned.by_ref = ⟨.anonDisplay s⟩ ∧
        ValueBag.downcast_ref t ⟨.display t s⟩ = true ∧
        ValueBag.downcast_ref t ((ValueBag.mk (.display t s)).to_owned.by_ref) = false) ∧
      ((ValueBag.mk (.error t m)).to_owned.by_ref = ⟨.anonError m⟩ ∧
        ValueBag.downcast_ref t ⟨.error t m⟩ = true ∧
        ValueBag.downcast_ref t ((ValueBag.mk (.error t m)).to_owned.by_ref) = false) ∧
      ((ValueBag.mk (.sval2 t sh)).to_owned.by_ref = ⟨.anonSval2 sh⟩ ∧
        ValueBag.downcast_ref t ⟨.sval2 t sh⟩ = true ∧
        ValueBag.downcast_ref t ((ValueBag.mk (.sval2 t sh)).to_owned.by_ref) = false) ∧
      ((ValueBag.mk (.serde1 t sh)).to_owned.by_ref = ⟨.anonSerde1 sh⟩ ∧
        ValueBag.downcast_ref t ⟨.serde1 t sh⟩ = true ∧
        ValueBag.downcast_ref t ((ValueBag.mk (.serde1 t sh)).to_owned.by_ref) = false) := by
  intro t s m sh
  refine ⟨⟨?_, ?_, ?_⟩, ⟨?_, ?_, ?_⟩, ⟨?_, ?_, ?_⟩, ⟨?_, ?_, ?_⟩, ⟨?_, ?_, ?_⟩⟩ <;>
    simp [ValueBag.to_owned, OwnedValueBag.by_ref, Internal.to_owned,
      OwnedInternal.by_ref, ValueBag.downcast_ref]

/-- C10: `to_borrowed_error` yields the stored error exactly for a container
built with the identified `capture_error` constructor; a container built with
`from_dyn_error` (the anonymous error variant) yields `None` even though it
holds a borrowed error, and every non-error variant yields `None`. -/
theorem to_borrowed_error_identified_only :
    (∀ (t : Nat) (m : String),
      (ValueBag.capture_error t m).to_borrowed_error = some m) ∧
    (∀ m : String, (ValueBag.from_dyn_error m).to_borrowed_error = Option.none) ∧
    (∀ v : ValueBag, (v.to_borrowed_error).isSome ↔ ∃ t m, v.inner = .error t m) := by
  refine ⟨fun _ _ => rfl, fun _ => rfl, ?_⟩
  intro v
  obtain ⟨i⟩ := v
  cases i <;> simp [ValueBag.to_borrowed_error]
